import Mathlib

/-!
# Verification of the Automate-Job-Application automation engine

Shallow embedding of the worker queue/retry logic (`apps/worker/src/index.ts`),
the LinkedIn form-automation state machine (`applyLinkedIn`), the MERN
eligibility classifier (`computeMERNScore` and its helpers), and the
numeric form-answer resolution (`fillAIQuestions` / `extractNumericAnswer`),
together with proofs of the specification's testable properties.
-/

namespace JobAuto

/-! ## Application states and outcomes (data model, §3 of the spec) -/

/-- `ApplicationState` values written by the engine (prisma `status` field). -/
inductive Status where
  | QUEUED
  | PROCESSING
  | APPLIED
  | FAILED
  | MANUAL_INTERVENTION
deriving DecidableEq, Repr

/-- Result values returned by the per-platform apply functions
(`applyLinkedIn` / `applyIndeed` return `"APPLIED" | "MANUAL" | "FAILED"`). -/
inductive ApplyResult where
  | APPLIED
  | MANUAL
  | FAILED
deriving DecidableEq, Repr

/-- The cascading ternary used at `applyWithBrowser` (part_006:2916) and
`runFullAutomation` (part_006:1869) to map an apply result to a status. -/
def statusOfResult : ApplyResult → Status
  | .APPLIED => .APPLIED
  | .MANUAL => .MANUAL_INTERVENTION
  | .FAILED => .FAILED

/-- A status is terminal when it is `APPLIED` or `FAILED` (spec §3 invariant). -/
def isTerminal : Status → Bool
  | .APPLIED => true
  | .FAILED => true
  | _ => false

/-! ## Worker retry loop (`apps/worker/src/index.ts`, lines 111-145)

`MAX_ATTEMPTS = 3` (line 9).  On a failed delivery the worker computes
`attempts = (payload.attempts ?? 0) + 1`; if `attempts < MAX_ATTEMPTS` it
re-enqueues the payload with the new `attempts` via `xadd`, otherwise it
writes status `FAILED`; in both branches the delivered message is `xack`ed. -/

def MAX_ATTEMPTS : Nat := 3

/-- One failed delivery of a message whose payload carries `attempts = a`
(index.ts lines 119-144).  Returns the payload attempts of the re-enqueued
message, if any, and whether terminal `FAILED` was recorded. -/
def failDelivery (a : Nat) : Option Nat × Bool :=
  let attempts := a + 1
  if attempts < MAX_ATTEMPTS then (some attempts, false) else (none, true)

/-- Observable state of one application job that fails on every delivery:
the queued payload's `attempts` field (`none` when no message is queued),
the number of deliveries so far, the `attempts` value computed at the most
recent delivery, and the current persisted `ApplicationState`. -/
structure FailRunState where
  queued : Option Nat
  deliveries : Nat
  lastAttempts : Nat
  status : Status
deriving DecidableEq, Repr

/-- One step of the always-failing run: if a message is queued the worker
consumes it (a delivery), writes `PROCESSING` (index.ts lines 39-42),
processing fails, and the failure handler of lines 119-144 runs. -/
def stepFailing (s : FailRunState) : FailRunState :=
  match s.queued with
  | none => s
  | some a =>
      let r := failDelivery a
      { queued := r.1
        deliveries := s.deliveries + 1
        lastAttempts := a + 1
        status := if r.2 then .FAILED else .PROCESSING }

/-- The job as first enqueued by `queueJob` (part_006:1589-1611): status
`QUEUED`, stream payload `attempts = 0`, no deliveries yet. -/
def initFailRun : FailRunState :=
  { queued := some 0, deliveries := 0, lastAttempts := 0, status := .QUEUED }

/-- State after `n` consecutive failing delivery opportunities. -/
def runFailing (n : Nat) : FailRunState :=
  stepFailing^[n] initFailRun

/-! ## LinkedIn form-automation state machine (`applyLinkedIn`, part_006:1985-2347) -/

/-- What the entry (pre-loop) scan of `applyLinkedIn` observes on the job
page: the closed-job marker (`"No longer accepting applications"` in the
page text, line 2005), whether one of the Easy-Apply selectors matched and
survived the job-card-link guard (lines 2022-2055), and the
previously-submitted marker (`"Application submitted"` / `"Applied "`,
line 2059). -/
structure EntryObs where
  closedMarker : Bool
  easyApplyFound : Bool
  submittedMarker : Bool

/-- What one iteration of the step loop observes: visibility of the four
affordance kinds, the dismiss dialog, the two step-timeout checks
(lines 2318 and 2328), and the `step >= 2` any-application-button probe
(line 2335). -/
structure StepObs where
  submitVisible : Bool
  reviewVisible : Bool
  nextVisible : Bool
  dismissVisible : Bool
  timeoutBeforeWait : Bool
  timeoutAfterWait : Bool
  anyAppButton : Bool

/-- The action kinds of the per-step decision (`SUBMIT > REVIEW > NEXT > STOP`,
comment at part_006:2220). -/
inductive StepAction where
  | submit
  | review
  | next
  | stall
deriving DecidableEq, Repr

/-- The per-step decision, in the exact branch order of the loop body
(lines 2222-2340): submit selectors first, then the review button, then the
next/continue button, else the stall handling. -/
def decideAction (o : StepObs) : StepAction :=
  if o.submitVisible then .submit
  else if o.reviewVisible then .review
  else if o.nextVisible then .next
  else .stall

def MAX_STEPS : Nat := 7

/-- The step loop of `applyLinkedIn` (lines 2136-2346), as a function of the
per-step observations.  The fill / re-fill calls (lines 2142-2218) and the
post-click error logging do not influence the control flow and are omitted.
`break` exits to line 2343 which returns `MANUAL`, so both `break` branches
are rendered as an immediate `MANUAL` result; each `continue` moves to the
next iteration; exhausting `MAX_STEPS` also returns `MANUAL` (line 2346). -/
def applyLoop (autoSubmit : Bool) (obs : Nat → StepObs) (step : Nat) : ApplyResult :=
  if _h : step < MAX_STEPS then
    let o := obs step
    match decideAction o with
    | .submit => if autoSubmit then .APPLIED else .MANUAL
    | .review => applyLoop autoSubmit obs (step + 1)
    | .next => applyLoop autoSubmit obs (step + 1)
    | .stall =>
        if o.dismissVisible then .MANUAL
        else if o.timeoutBeforeWait then applyLoop autoSubmit obs (step + 1)
        else if o.timeoutAfterWait then applyLoop autoSubmit obs (step + 1)
        else if 2 ≤ step ∧ ¬ o.anyAppButton then .MANUAL
        else applyLoop autoSubmit obs (step + 1)
  else .MANUAL
termination_by MAX_STEPS - step
decreasing_by all_goals omega

/-- `applyLinkedIn` control flow: the closed-marker short-circuit
(lines 2005-2013), then the entry-affordance decision (lines 2057-2089),
then the step loop. -/
def applyLinkedIn (autoSubmit : Bool) (e : EntryObs) (obs : Nat → StepObs) : ApplyResult :=
  if e.closedMarker then .FAILED
  else if ¬ e.easyApplyFound then
    (if e.submittedMarker then .APPLIED else .MANUAL)
  else applyLoop autoSubmit obs 0

/-! ## String primitives shared by the embeddings -/

/-- Boolean prefix test on character lists. -/
def isPrefixB : List Char → List Char → Bool
  | [], _ => true
  | _ :: _, [] => false
  | a :: as, b :: bs => a = b && isPrefixB as bs

/-- JavaScript `hay.includes(needle)`: does `needle` occur as a contiguous
substring of `hay`? -/
def containsSub (needle hay : List Char) : Bool :=
  if isPrefixB needle hay then true
  else match hay with
    | [] => false
    | _ :: rest => containsSub needle rest

/-! ## Numeric form-answer resolution (`fillAIQuestions`, part_006:784-807) -/

/-- `lowered.includes(...)` salary classification (part_006:787). -/
def labelIsSalary (lowered : List Char) : Bool :=
  containsSub "salary".toList lowered || containsSub "ctc".toList lowered ||
    containsSub "compensation".toList lowered || containsSub "pay".toList lowered ||
    containsSub "expected".toList lowered

/-- `lowered.includes(...)` experience classification (part_006:788). -/
def labelIsExperience (lowered : List Char) : Bool :=
  containsSub "years".toList lowered || containsSub "experience".toList lowered ||
    containsSub "how long".toList lowered || containsSub "how many".toList lowered

/-- The `finalNum` computation of part_006:789-799, as a function of the
lowered label and of the numeric string already extracted from the AI
answer by `extractNumericAnswer`.  JS string truthiness: only `""` is
falsy, so `numeric || "0"` is `if numeric = "" then "0" else numeric`. -/
def resolveNumericAnswer (lowered : List Char) (numeric : String) : String :=
  if labelIsSalary lowered then
    (if numeric = "" then "0" else numeric)
  else if labelIsExperience lowered then
    (if numeric = "0" ∨ numeric = "" then "1" else numeric)
  else
    (if numeric = "" then "1" else numeric)

/-- `extractNumericAnswer` (part_006:598-601): first match of the regex
`-?\d+(\.\d+)?` in the answer, else `""`.  The match at a position is a
maximal digit run, optionally preceded by `-` and followed by `.` plus a
nonempty digit run; the leftmost matching position wins. -/
def takeDigits : List Char → List Char × List Char
  | [] => ([], [])
  | c :: rest =>
      if c.isDigit then
        let r := takeDigits rest
        (c :: r.1, r.2)
      else ([], c :: rest)

/-- The optional fractional part `(\.\d+)?` following the integer digits. -/
def fracPart : List Char → List Char
  | '.' :: rest =>
      let r := takeDigits rest
      if r.1.isEmpty then [] else '.' :: r.1
  | _ => []

def numericAt : List Char → Option (List Char)
  | [] => none
  | c :: rest =>
      if c.isDigit then
        let r := takeDigits (c :: rest)
        some (r.1 ++ fracPart r.2)
      else if c = '-' then
        match rest with
        | d :: _ =>
            if d.isDigit then
              let r := takeDigits rest
              some ('-' :: r.1 ++ fracPart r.2)
            else none
        | [] => none
      else none

def numericSearch : List Char → Option (List Char)
  | [] => none
  | c :: rest =>
      match numericAt (c :: rest) with
      | some m => some m
      | none => numericSearch rest

def extractNumericAnswer (answer : String) : String :=
  match numericSearch answer.toList with
  | some m => String.mk m
  | none => ""

/-! ## A small regular-expression engine

The classifier's rules (part_006:164-291) are case-insensitive JS regexes
built from literals, the classes `\s` `\w` `\d` `[\s-]` `[\.\s]` `[a-c]`,
alternation, option, `*`/`+` repetition and the word-boundary assertion
`\b`.  We embed them with an executable matcher that enumerates all parses;
`rtest` is `pattern.test(text)` (the `i` flag is rendered by lowercasing
the text and writing the literals in lowercase, which agrees with JS
semantics on these ASCII patterns). -/

inductive Rx where
  | eps : Rx
  | cls : (Char → Bool) → Rx
  | seq : Rx → Rx → Rx
  | alt : Rx → Rx → Rx
  | star : Rx → Rx
  | wb : Rx

/-- JS word character (`\w` and the `\b` notion): `[A-Za-z0-9_]`. -/
def isWordChar (c : Char) : Bool :=
  (('a' ≤ c && c ≤ 'z') || ('A' ≤ c && c ≤ 'Z') || c.isDigit || c = '_')

/-- JS whitespace class `\\s` (tab, line feed, vertical tab, form feed,
carriage return, space, and the Unicode space separators JS includes). -/
def isJsSpace (c : Char) : Bool :=
  c = ' ' || c = '\t' || c = '\n' || c = '\u000b' || c = '\u000c' || c = '\u000d' ||
    c = '\u00a0' || c = '\u1680' || ('\u2000' ≤ c && c ≤ '\u200a') ||
    c = '\u2028' || c = '\u2029' || c = '\u202f' || c = '\u205f' ||
    c = '\u3000' || c = '\ufeff'

/-- Does a word boundary fall between the previous character and the rest? -/
def isBoundary (prev : Option Char) (rest : List Char) : Bool :=
  let a := match prev with | none => false | some c => isWordChar c
  let b := match rest with | [] => false | c :: _ => isWordChar c
  a != b

/-- Iterated matching for `star`: `m` matches the starred subpattern once;
`fuel` bounds the number of unfoldings (each unfolding must consume at
least one character, which every starred subpattern below does, so
`s.length + 1` fuel is exhaustive). -/
def mrunStar (m : Option Char → List Char → List (Option Char × List Char)) :
    Nat → Option Char → List Char → List (Option Char × List Char)
  | 0, p, s => [(p, s)]
  | fuel + 1, p, s =>
      (p, s) :: (m p s).flatMap (fun st =>
        if st.2.length < s.length then mrunStar m fuel st.1 st.2 else [])

/-- All ways a pattern can match a prefix of `s`; each result is the
character just before the remaining suffix paired with that suffix. -/
def mrun : Rx → Option Char → List Char → Nat → List (Option Char × List Char)
  | .eps, p, s, _ => [(p, s)]
  | .wb, p, s, _ => if isBoundary p s then [(p, s)] else []
  | .cls _, _, [], _ => []
  | .cls f, _, c :: rest, _ => if f c then [(some c, rest)] else []
  | .seq a b, p, s, fuel =>
      (mrun a p s fuel).flatMap (fun st => mrun b st.1 st.2 fuel)
  | .alt a b, p, s, fuel => mrun a p s fuel ++ mrun b p s fuel
  | .star a, p, s, fuel => mrunStar (fun p' s' => mrun a p' s' fuel) fuel p s

/-- Search for a match starting at any position of `s`; `p` is the
character preceding `s` in the full text. -/
def searchFrom (r : Rx) (p : Option Char) (s : List Char) : Bool :=
  if (mrun r p s (s.length + 1)).isEmpty then
    match s with
    | [] => false
    | c :: rest => searchFrom r (some c) rest
  else true

/-- Lowercase a string to a character list (the engine's inputs are ASCII;
this renders both `.toLowerCase()` and the `i` regex flag). -/
def lowerStr (s : String) : List Char := s.toList.map Char.toLower

/-- `pattern.test(text)` for a case-insensitive pattern written in
lowercase. -/
def rtest (r : Rx) (s : String) : Bool := searchFrom r none (lowerStr s)

/-- `pattern.test` on an already-lowercased character list. -/
def rtestL (r : Rx) (s : List Char) : Bool := searchFrom r none s

/-! Pattern-building helpers. -/

def chr (c : Char) : Rx := .cls (fun x => x = c)

def lit : List Char → Rx
  | [] => .eps
  | c :: rest => .seq (chr c) (lit rest)

def litS (s : String) : Rx := lit s.toList

def ropt (r : Rx) : Rx := .alt r .eps

def rplus (r : Rx) : Rx := .seq r (.star r)

def altList : List Rx → Rx
  | [] => .cls (fun _ => false)
  | [r] => r
  | r :: rest => .alt r (altList rest)

/-- `\s` -/
def spaceC : Rx := .cls isJsSpace
/-- `[\s-]` -/
def spaceDashC : Rx := .cls (fun c => isJsSpace c || c = '-')
/-- `[\.\s]` -/
def dotSpaceC : Rx := .cls (fun c => c = '.' || isJsSpace c)
/-- `\d` -/
def digitC : Rx := .cls Char.isDigit
/-- `\w` -/
def wordC : Rx := .cls isWordChar

/-- `\b(alternatives)\b` for a list of literal-ish alternatives. -/
def wordAlt (rs : List Rx) : Rx := .seq .wb (.seq (altList rs) .wb)

/-! ## MERN eligibility classifier (part_006:147-428) -/

/-- `[\s-]?` as used in several patterns. -/
def sepOpt : Rx := ropt spaceDashC

/-- `(developer|engineer|dev)` -/
def devAlt : Rx := altList [litS "developer", litS "engineer", litS "dev"]

/-- `MERN_TITLE_PATTERNS` (part_006:164-170): pattern and label pairs. -/
def rxMern : Rx := wordAlt [litS "mern"]

def rxFullStack : Rx :=
  .seq .wb (.seq (litS "full") (.seq sepOpt (.seq (litS "stack")
    (.seq (ropt (.seq (rplus spaceC) (rplus wordC)))
      (.seq (.star spaceC) (.seq devAlt .wb))))))

def rxReactDev : Rx :=
  .seq .wb (.seq (litS "react") (.seq (ropt (.seq (ropt (chr '.')) (litS "js")))
    (.seq (.star spaceC) (.seq devAlt .wb))))

def rxNodeDev : Rx :=
  .seq .wb (.seq (litS "node") (.seq (ropt (.seq (ropt (chr '.')) (litS "js")))
    (.seq (.star spaceC) (.seq devAlt .wb))))

def rxNodejsDev : Rx :=
  .seq .wb (.seq (litS "nodejs") (.seq (.star spaceC) (.seq devAlt .wb)))

def MERN_TITLE_PATTERNS : List (Rx × String) :=
  [ (rxMern, "MERN"),
    (rxFullStack, "Full Stack Developer"),
    (rxReactDev, "React Developer"),
    (rxNodeDev, "Node.js Developer"),
    (rxNodejsDev, "Node.js Developer") ]

/-- `EXCLUDED_TECH` (part_006:173-201). -/
def EXCLUDED_TECH : List String :=
  [ "java developer", "java engineer", "java backend", "spring boot",
    "spring framework", "j2ee",
    "python developer", "python engineer", "django", "flask",
    ".net developer", ".net engineer", "c# developer", "c#.net", "asp.net",
    "php developer", "php engineer", "laravel", "symfony", "wordpress developer",
    "salesforce", "salesforce developer", "salesforce engineer",
    "flutter developer", "flutter engineer",
    "android developer", "android engineer", "kotlin developer",
    "ios developer", "ios engineer", "swift developer",
    "angular developer", "angular engineer", "vue developer", "vue engineer",
    "react native developer",
    "data scientist", "data analyst", "data engineer",
    "machine learning", "ml engineer", "ai engineer",
    "devops engineer", "sre engineer", "cloud engineer",
    "qa engineer", "test engineer", "sdet",
    "sap developer", "sap consultant" ]

def EXCLUDED_FRONTEND_ONLY : List String :=
  [ "frontend developer", "front-end developer", "front end developer",
    "ui developer", "ui/ux developer", "css developer" ]

def EXCLUDED_BACKEND_ONLY : List String :=
  ["backend developer", "back-end developer", "back end developer"]

/-- `\b(staff|principal|lead|architect)\b` (part_006:214). -/
def rxSeniorTitle : Rx :=
  wordAlt [litS "staff", litS "principal", litS "lead", litS "architect"]

/-- The suffix of the years-of-experience regex
`(\d+)\+?\s*(?:years?|yrs?)\s*(?:of\s+)?(?:experience|exp)` after the
captured digits (part_006:220). -/
def rxYearsRest : Rx :=
  .seq (ropt (chr '+')) (.seq (.star spaceC)
    (.seq (.alt (.seq (litS "year") (ropt (chr 's')))
                (.seq (litS "yr") (ropt (chr 's'))))
      (.seq (.star spaceC)
        (.seq (ropt (.seq (litS "of") (rplus spaceC)))
          (.alt (litS "experience") (litS "exp"))))))

def yearsRestMatch (s : List Char) : Bool :=
  !(mrun rxYearsRest none s (s.length + 1)).isEmpty

def natOfDigits (ds : List Char) : Nat :=
  ds.foldl (fun n c => n * 10 + (c.toNat - '0'.toNat)) 0

/-- The captured number of the first (leftmost) match of the years regex,
as `parseInt` reads it.  The match must start at a digit; the capture is
the maximal digit run there (the suffix after `(\d+)` cannot begin with a
digit, so the greedy capture never backtracks). -/
def yearsSearch : List Char → Option Nat
  | [] => none
  | c :: rest =>
      if c.isDigit then
        let r := takeDigits (c :: rest)
        if yearsRestMatch r.2 then some (natOfDigits r.1) else yearsSearch rest
      else yearsSearch rest

/-- `isSeniorRole` (part_006:210-226): senior title words, else a stated
requirement of at least 6 years of experience in the description. -/
def isSeniorRole (title : String) (description : Option String) : Bool :=
  let t := lowerStr title
  let d := lowerStr (description.getD "")
  if rtestL rxSeniorTitle t then true
  else
    match yearsSearch d with
    | some years => decide (6 ≤ years)
    | none => false

/-- Positive remote signals (part_006:232). -/
def rxRemoteSignals : Rx :=
  wordAlt [litS "remote", litS "work from home", litS "wfh", litS "fully remote",
    litS "anywhere", litS "worldwide", litS "global", litS "distributed"]

/-- Negative onsite/hybrid signals (part_006:234). -/
def rxOnsiteSignals : Rx :=
  wordAlt [ .seq (litS "on") (.seq sepOpt (litS "site")),
    .seq (litS "in") (.seq sepOpt (litS "office")),
    litS "hybrid",
    .seq (litS "office") (.seq sepOpt (litS "based")),
    litS "must be located",
    litS "relocation required" ]

/-- `isRemoteJob` (part_006:229-247).  Returns `(remote, reason)`.
JS truthiness: the location block runs only when `location` is a nonempty
string. -/
def isRemoteJob (title : String) (location description : Option String) :
    Bool × String :=
  let text := lowerStr (title ++ " " ++ location.getD "" ++ " " ++ description.getD "")
  let remoteSignals := rtestL rxRemoteSignals text
  let onsiteSignals := rtestL rxOnsiteSignals text
  if onsiteSignals then (false, "Job is onsite or hybrid")
  else
    let fallback : Bool × String :=
      if remoteSignals then (true, "Fully remote")
      else (false, "No remote indication found")
    match location with
    | none => fallback
    | some l =>
        if l = "" then fallback
        else
          let loc := lowerStr l
          let isLocationSpecific :=
            !(containsSub "remote".toList loc) && !(containsSub "anywhere".toList loc) &&
              !(containsSub "worldwide".toList loc)
          if isLocationSpecific && !remoteSignals then
            (false, "Location restricted: \"" ++ l ++ "\"")
          else fallback

/-- `isExcludedJob` (part_006:294-317).  Returns `(excluded, reason)`; the
first matching vocabulary entry supplies the reason. -/
def isExcludedJob (title description : String) : Bool × String :=
  let t := lowerStr title
  let d := lowerStr (title ++ " " ++ description)
  match EXCLUDED_TECH.find? (fun tech => containsSub tech.toList t) with
  | some tech => (true, "Title contains excluded tech: \"" ++ tech ++ "\"")
  | none =>
      let fe :=
        if !(containsSub "full".toList t) && !(containsSub "mern".toList t) then
          EXCLUDED_FRONTEND_ONLY.find? (fun fe => containsSub fe.toList t)
        else none
      match fe with
      | some fe => (true, "Frontend-only role: \"" ++ fe ++ "\"")
      | none =>
          let be :=
            if !(containsSub "node".toList d) then
              EXCLUDED_BACKEND_ONLY.find? (fun be => containsSub be.toList t)
            else none
          match be with
          | some be => (true, "Backend-only role without Node.js: \"" ++ be ++ "\"")
          | none => (false, "")

/-- Preference-bonus signal patterns (part_006:277-285). -/
def rxStartup : Rx :=
  wordAlt [litS "startup", .seq (litS "early") (.seq sepOpt (litS "stage")),
    litS "funded",
    .seq (litS "series") (.seq (.star spaceC) (.cls (fun c => 'a' ≤ c && c ≤ 'c'))),
    .seq (litS "seed") (.seq (.star spaceC) (litS "round"))]

def rxProductCompany : Rx :=
  wordAlt [ .seq (litS "product") (.seq (.star spaceC) (litS "company")),
    .seq (litS "product") (.seq sepOpt (litS "based")),
    litS "saas", litS "b2b", litS "b2c", litS "platform" ]

def rxInternational : Rx :=
  wordAlt [litS "international", litS "global", litS "anywhere", litS "worldwide",
    litS "no visa", litS "any country"]

def rxEarlyStage : Rx :=
  wordAlt [ .seq (litS "early") (.seq sepOpt (litS "stage")),
    litS "small team", litS "founding",
    .seq (litS "first") (.seq (.star spaceC)
      (.seq (rplus digitC) (.seq (.star spaceC) (litS "engineer")))) ]

/-- `preferenceSignals` (part_006:277-285): labels pushed in order. -/
def preferenceSignals (title description : String) : List String :=
  let text := lowerStr (title ++ " " ++ description)
  (if rtestL rxStartup text then ["startup"] else []) ++
    (if rtestL rxProductCompany text then ["product company"] else []) ++
    (if rtestL rxInternational text then ["international hiring"] else []) ++
    (if rtestL rxEarlyStage text then ["early-stage team"] else [])

/-! Technology-bucket patterns of `descBucketChecks` (part_006:250-274). -/

def rxBucketReact : Rx :=
  .seq .wb (.seq (litS "react") (.seq (ropt (.seq (ropt dotSpaceC) (litS "js"))) .wb))

def rxBucketNode : Rx :=
  .seq .wb (.seq (litS "node") (.seq (ropt (.seq (ropt (chr '.')) (litS "js"))) .wb))

def rxBucketNodejs : Rx := wordAlt [litS "nodejs"]

def rxBucketMongo : Rx := wordAlt [litS "mongodb", litS "mongo"]

def rxBucketExpress : Rx :=
  wordAlt [.seq (litS "express") (ropt (.seq (ropt (chr '.')) (litS "js"))),
    litS "expressjs"]

def rxBucketRest : Rx :=
  wordAlt [ .seq (litS "rest") (.seq (.star spaceC) (litS "api")),
    litS "restful", litS "graphql",
    .seq (litS "api") (.seq (.star spaceC) (litS "development")) ]

def rxBucketJavascript : Rx :=
  wordAlt [litS "javascript", litS "typescript", litS "es6", litS "es2015",
    litS "ecmascript"]

/-- `descBucketChecks` (part_006:250-274): the 6 fixed technology buckets;
returns the hit labels and the missed labels, each in bucket order. -/
def descBucketChecks (d : String) : List String × List String :=
  let checks : List (Bool × String) :=
    [ (rtest rxBucketReact d, "React"),
      (rtest rxBucketNode d || rtest rxBucketNodejs d, "Node.js"),
      (rtest rxBucketMongo d, "MongoDB"),
      (rtest rxBucketExpress d, "Express"),
      (rtest rxBucketRest d, "REST API"),
      (rtest rxBucketJavascript d, "JavaScript") ]
  (checks.filterMap (fun p => if p.1 then some p.2 else none),
    checks.filterMap (fun p => if p.1 then none else some p.2))

/-- `MatchResult` confidence levels (spec §3). -/
inductive Confidence where
  | low
  | medium
  | high
deriving DecidableEq, Repr

/-- The mandatory JSON scoring output (part_006:152-158). -/
structure MERNScoreResult where
  match_score : Nat
  is_match : Bool
  reasons : List String
  missing_skills : List String
  confidence : Confidence
deriving DecidableEq, Repr

/-! Every score value in `computeMERNScore` is a nonnegative multiple of
`0.5` (the only non-integer weight is 7.5 per bucket), and all such values
are exact in JS floats, so we carry the running score exactly in
*half-points* (`scoreH = 2 * score`). -/

/-- JS `Math.round` applied to a half-point value `h/2`: rounds half up,
i.e. `(h + 1) / 2` in integer division. -/
def jsRoundHalf (h : Nat) : Nat := (h + 1) / 2

/-- JS `String.prototype.trim`. -/
def jsTrim (s : List Char) : List Char :=
  ((s.dropWhile isJsSpace).reverse.dropWhile isJsSpace).reverse

/-- Rule 3 bucket points `Math.min(hits.length * 7.5, 45)` (part_006:371),
in half-points. -/
def bucketScoreH (hits : Nat) : Nat := min (hits * 15) 90

/-- Rule 5 preference bonus `Math.min(prefs.length * 5, 20)` added only
when at least one signal matched (part_006:399-403), in half-points. -/
def prefBonusH (prefs : Nat) : Nat :=
  if 0 < prefs then min (prefs * 10) 40 else 0

/-- The no-description arm of rule 3 followed by rule 5 and the final
evaluation (part_006:391-416): no bucket points, preference bonus on
`description ?? ""`, confidence `low`.  The running score is
`35 + bonus`, i.e. `70 + bonusH` half-points. -/
def shallowResult (title : String) (description : Option String)
    (reasons0 : List String) : MERNScoreResult :=
  let reasons1 := reasons0 ++ ["No description available for deep validation"]
  let prefs := preferenceSignals title (description.getD "")
  let scoreH : Nat := 70 + prefBonusH prefs.length
  let reasons2 := reasons1 ++
    (if 0 < prefs.length then ["Preference signals: " ++ String.intercalate ", " prefs] else [])
  let finalScore := min (jsRoundHalf scoreH) 100
  ⟨finalScore, decide (65 ≤ finalScore), reasons2, [], .low⟩

/-- The deep arm of rule 3 (description longer than 50 characters) followed
by rule 5 and the final evaluation (part_006:367-416).  The `< 2` early
return applies `Math.round` but not the `Math.min(·, 100)` cap
(part_006:384); the final return applies both (part_006:406). -/
def deepResult (title desc : String) (reasons0 : List String) : MERNScoreResult :=
  let bc := descBucketChecks desc
  let hits := bc.1
  let misses := bc.2
  let scoreH : Nat := 70 + bucketScoreH hits.length
  let bucketReason :=
    if 2 ≤ hits.length then "Description mentions: " ++ String.intercalate ", " hits
    else "Description only mentions " ++ toString hits.length ++ "/6 MERN techs (need 2+)"
  let confidence :=
    if 4 ≤ hits.length then Confidence.high
    else if 2 ≤ hits.length then Confidence.medium
    else Confidence.low
  if hits.length < 2 then
    ⟨jsRoundHalf scoreH, false, reasons0 ++ [bucketReason], misses, confidence⟩
  else
    let prefs := preferenceSignals title desc
    let scoreH2 := scoreH + prefBonusH prefs.length
    let reasons2 := reasons0 ++ [bucketReason] ++
      (if 0 < prefs.length then ["Preference signals: " ++ String.intercalate ", " prefs] else [])
    let finalScore := min (jsRoundHalf scoreH2) 100
    ⟨finalScore, decide (65 ≤ finalScore), reasons2, misses, confidence⟩

/-- `computeMERNScore` (part_006:324-416): the strict rule order is empty
title guard, rule 1 remote, rule 4 exclusion, rule 6 seniority, rule 2
title match, rule 3 description buckets, rule 5 preference bonus. -/
def computeMERNScore (title : String) (description location : Option String) :
    MERNScoreResult :=
  if (jsTrim title.toList).isEmpty then
    ⟨0, false, ["Empty title"], [], .high⟩
  else
    let remoteCheck := isRemoteJob title location description
    if !remoteCheck.1 then
      ⟨0, false, ["Not remote: " ++ remoteCheck.2], [], .high⟩
    else
      let exclusion := isExcludedJob title (description.getD "")
      if exclusion.1 then
        ⟨0, false, [exclusion.2], [], .high⟩
      else if isSeniorRole title description then
        ⟨0, false, ["Senior role requiring 6+ years experience"], [], .high⟩
      else
        match MERN_TITLE_PATTERNS.find? (fun p => rtest p.1 title) with
        | none =>
            ⟨0, false,
              ["Fully remote ✓",
                "Title \"" ++ title ++ "\" doesn\x27t match any MERN role keyword"],
              [], .high⟩
        | some pat =>
            let reasons0 := ["Fully remote ✓", "Title matches: " ++ pat.2]
            match description with
            | some desc =>
                if 50 < desc.length then deepResult title desc reasons0
                else shallowResult title (some desc) reasons0
            | none => shallowResult title none reasons0

/-- `validateMERNJob` (part_006:419-428): pre-click validation wrapper;
passes exactly when `is_match`. -/
def validateMERNJob (title : String) (description location : Option String) :
    Bool × String :=
  let result := computeMERNScore title description location
  if result.is_match then
    (true, "Matches MERN (" ++ toString result.match_score ++ "%) — " ++
      String.intercalate "; " result.reasons)
  else
    (false, result.reasons.headD "Does not match MERN criteria")

/-! ## Status-write traces of one application (C6)

The engine's `ApplicationState` writes for a given application id, in
program order.  Repository and notification calls are modelled as
succeeding; the modelled failure point is the browser automation itself
(`getContext` / navigation / the apply flow / the post-apply messaging
waits).  In `applyWithBrowser` every automation throw happens before a
terminal status write: every throwing site inside its `try` is caught at
part_006:2948 which then writes `FAILED` and returns normally, the
pre-`try` context creation (part_006:2655-2666) throws before any write,
and the poster messaging runs before the terminal write (part_006:2823-2836)
with the code after it guarded.  In `runFullAutomation`'s direct-apply
block this is NOT so: after the terminal write at part_006:1866 the
`result === "APPLIED"` branch awaits an unguarded
`page.waitForTimeout(1500)` (part_006:1892, between the `.catch`-guarded
`page.goto` at 1891 and the fully try/caught `messageJobPoster`), and a
browser failure there reaches the catch at part_006:1903-1908, which
writes `FAILED` after `APPLIED`. -/

/-- The status writes of one `applyWithBrowser` call that reaches its
`try` block (part_006:2671-2967): `PROCESSING` first (line 2672), then
exactly one terminal-or-manual write — `FAILED` from an early validation
return (lines 2742, 2752, 2772, 2853) or from the catch handler
(line 2949), else `statusOfResult result` (line 2913). -/
def applyWithBrowserWrites (earlyFail : Bool) (r : ApplyResult) : List Status :=
  Status.PROCESSING :: (if earlyFail then [Status.FAILED] else [statusOfResult r])

/-- The status writes of the direct-apply block of `runFullAutomation`
(part_006:1801-1914): `PROCESSING` (line 1805), then `FAILED` from the URL
check (line 1827) or from a throw caught before the terminal write
(line 1905), else `statusOfResult result` (line 1866).  After an `APPLIED`
write the block re-opens the job page to message the poster; the
`page.goto` at line 1891 is `.catch`-guarded but the
`page.waitForTimeout(1500)` at line 1892 is not, so a browser failure
there throws after the terminal write and the catch at lines 1903-1908
writes `FAILED` on top of `APPLIED` — `postApplyThrow` renders that
path. -/
def runFullAutomationWrites (earlyFail : Bool) (r : ApplyResult)
    (postApplyThrow : Bool) : List Status :=
  Status.PROCESSING ::
    (if earlyFail then [Status.FAILED]
     else statusOfResult r ::
       (if r = ApplyResult.APPLIED ∧ postApplyThrow = true then [Status.FAILED] else []))

/-- The writes the worker performs for one queued application, starting
from a stream message with payload attempts `a` (index.ts lines 94-146).
A delivery writes `PROCESSING` (line 39); if `applyWithBrowser` throws
(having written nothing), the handler re-enqueues while
`a + 1 < MAX_ATTEMPTS` and otherwise writes `FAILED`; a non-throwing
`applyWithBrowser` contributes its own writes and the message is
acknowledged, ending the lifecycle. -/
inductive WorkerWrites : Nat → List Status → Prop where
  | success (a : Nat) (earlyFail : Bool) (r : ApplyResult) :
      WorkerWrites a (Status.PROCESSING :: applyWithBrowserWrites earlyFail r)
  | failRequeue (a : Nat) (rest : List Status) :
      a + 1 < MAX_ATTEMPTS → WorkerWrites (a + 1) rest →
      WorkerWrites a (Status.PROCESSING :: rest)
  | failExhaust (a : Nat) :
      ¬ a + 1 < MAX_ATTEMPTS →
      WorkerWrites a [Status.PROCESSING, Status.FAILED]

/-- All write sequences the automation engine can produce for one
application: created as `QUEUED` by `queueJob` (part_006:1594), then either
consumed from the stream by the worker or applied directly by
`runFullAutomation` (`skipStream = true`, part_006:1797). -/
inductive AppTrace : List Status → Prop where
  | worker (rest : List Status) :
      WorkerWrites 0 rest → AppTrace (Status.QUEUED :: rest)
  | direct (earlyFail : Bool) (r : ApplyResult) (postApplyThrow : Bool) :
      AppTrace (Status.QUEUED :: runFullAutomationWrites earlyFail r postApplyThrow)

/-- Once a terminal status is written, nothing is written afterwards. -/
def noWriteAfterTerminal : List Status → Bool
  | [] => true
  | s :: rest => if isTerminal s then rest.isEmpty else noWriteAfterTerminal rest

/-! # Theorems -/

/-! ## C1: bounded retries in the worker -/

/-- Closed form of the always-failing run: while fewer than `MAX_ATTEMPTS`
delivery opportunities have passed the message is still circulating with
`attempts = n`; from the third delivery on the state is frozen at three
deliveries, `attempts = 3`, status `FAILED`. -/
theorem runFailing_closed (n : Nat) :
    runFailing n =
      if n < MAX_ATTEMPTS then
        { queued := some n, deliveries := n, lastAttempts := n,
          status := if n = 0 then Status.QUEUED else Status.PROCESSING }
      else
        { queued := none, deliveries := MAX_ATTEMPTS, lastAttempts := MAX_ATTEMPTS,
          status := Status.FAILED } := by
  induction n with
  | zero => simp [runFailing, initFailRun, MAX_ATTEMPTS]
  | succ n ih =>
      rw [runFailing, Function.iterate_succ_apply', ← runFailing, ih]
      by_cases h : n < MAX_ATTEMPTS
      · by_cases h' : n + 1 < MAX_ATTEMPTS
        · simp [h, h', stepFailing, failDelivery]
        · have hn : n + 1 = MAX_ATTEMPTS := by omega
          simp [h, h', stepFailing, failDelivery, hn]
      · have h' : ¬ n + 1 < MAX_ATTEMPTS := by omega
        simp [h, h', stepFailing]

/-- **C1.** On a failed delivery the worker increments `attempts` and
re-enqueues a new stream message exactly when `attempts < MAX_ATTEMPTS`,
and otherwise records terminal `FAILED` without re-enqueueing; for a job
that fails on every delivery, after `n` delivery opportunities the
recorded `attempts` equals `min n 3`, the number of deliveries equals
`min n 3` (so there are exactly 3 deliveries and never a 4th), and the
application ends in `FAILED`. -/
theorem worker_retry_attempts_min (a n : Nat) :
    failDelivery a = (if a + 1 < MAX_ATTEMPTS then (some (a + 1), false) else (none, true)) ∧
    (runFailing n).lastAttempts = min n MAX_ATTEMPTS ∧
    (runFailing n).deliveries = min n MAX_ATTEMPTS ∧
    (runFailing n).queued = (if n < MAX_ATTEMPTS then some n else none) ∧
    (runFailing n).status =
      (if n = 0 then Status.QUEUED
       else if n < MAX_ATTEMPTS then Status.PROCESSING
       else Status.FAILED) := by
  refine ⟨rfl, ?_⟩
  rw [runFailing_closed n]
  by_cases h : n < MAX_ATTEMPTS
  · have hmin : min n MAX_ATTEMPTS = n := by omega
    simp [h, hmin]
  · have hmin : min n MAX_ATTEMPTS = MAX_ATTEMPTS := by omega
    have h0 : ¬ n = 0 := by
      simp only [MAX_ATTEMPTS] at h
      omega
    simp [h, hmin, h0]

/-! ## C6: terminal states and the post-apply messaging window -/

/-- Helper: the worker's write sequences never write anything after a
terminal status. -/
theorem workerWrites_noWriteAfterTerminal (a : Nat) (l : List Status)
    (h : WorkerWrites a l) : noWriteAfterTerminal l = true := by
  induction h with
  | success a earlyFail r =>
      cases earlyFail <;> cases r <;>
        simp [applyWithBrowserWrites, noWriteAfterTerminal, isTerminal, statusOfResult]
  | failRequeue a rest hlt hw ih =>
      simpa [noWriteAfterTerminal, isTerminal] using ih
  | failExhaust a hge =>
      simp [noWriteAfterTerminal, isTerminal]

/-- Helper: outside the unguarded post-apply wait, the invariant holds —
the worker lifecycle always keeps terminal writes last, and so does the
direct-apply block whenever nothing throws after its terminal write.  The
violation below is confined to that single site. -/
theorem noWriteAfterTerminal_without_post_apply_throw :
    (∀ rest : List Status, WorkerWrites 0 rest →
      noWriteAfterTerminal (Status.QUEUED :: rest) = true) ∧
    (∀ (earlyFail : Bool) (r : ApplyResult),
      noWriteAfterTerminal
        (Status.QUEUED :: runFullAutomationWrites earlyFail r false) = true) := by
  constructor
  · intro rest hw
    simpa [noWriteAfterTerminal, isTerminal] using
      workerWrites_noWriteAfterTerminal 0 rest hw
  · intro earlyFail r
    cases earlyFail <;> cases r <;>
      simp [runFullAutomationWrites, noWriteAfterTerminal, isTerminal, statusOfResult]

/-- **C6 (code bug).** The claimed invariant fails in the source: in
`runFullAutomation`'s direct-apply block a browser failure in the
unguarded `page.waitForTimeout(1500)` (part_006:1892) after the `APPLIED`
write (part_006:1866) reaches the catch handler (part_006:1903-1908),
which writes `FAILED` after `APPLIED`: the engine has a reachable write
trace in which a terminal state is followed by a different state.  The
surrounding code (the `.catch`-guarded `goto` at 1891, the fully
try/caught `messageJobPoster`, and `applyWithBrowser` messaging before
its terminal write) shows the spec's invariant is the intent and the
missing guard a slip. -/
theorem terminal_reentered_on_post_apply_throw :
    AppTrace [Status.QUEUED, Status.PROCESSING, Status.APPLIED, Status.FAILED] ∧
    noWriteAfterTerminal
      [Status.QUEUED, Status.PROCESSING, Status.APPLIED, Status.FAILED] = false := by
  constructor
  · have h : runFullAutomationWrites false ApplyResult.APPLIED true =
        [Status.PROCESSING, Status.APPLIED, Status.FAILED] := by decide
    have := AppTrace.direct false ApplyResult.APPLIED true
    rwa [h] at this
  · rfl

/-! ## C2: step priority and bounded steps -/

/-- Helper for C2: if no submit affordance is ever visible, the loop
returns `MANUAL` from every starting step. -/
theorem applyLoop_manual_of_no_submit (autoSubmit : Bool) (obs : Nat → StepObs)
    (h : ∀ i, i < MAX_STEPS → (obs i).submitVisible = false) :
    ∀ k step, MAX_STEPS - step ≤ k → applyLoop autoSubmit obs step = .MANUAL := by
  intro k
  induction k with
  | zero =>
      intro step hs
      have hge : ¬ step < MAX_STEPS := by omega
      rw [applyLoop]
      simp [hge]
  | succ k ih =>
      intro step hs
      by_cases hlt : step < MAX_STEPS
      · have hsub := h step hlt
        have hrec : applyLoop autoSubmit obs (step + 1) = .MANUAL :=
          ih (step + 1) (by omega)
        rw [applyLoop]
        simp only [hlt, dite_true, dif_pos]
        cases hr : (obs step).reviewVisible <;> cases hn : (obs step).nextVisible <;>
          simp [decideAction, hsub, hr, hn, hrec]
      · rw [applyLoop]
        simp [hlt]

/-- **C2.** Each of the at most `MAX_STEPS = 7` loop iterations decides the
next action by the priority Submit > Review > Next > Stall (first
conjunct: the decision; second: how the loop dispatches on it), and a run
that enters the loop and never sees a submit affordance through step 7
terminates with value `MANUAL_INTERVENTION` — a returned value, not an
exception (the loop is a total function). -/
theorem applyLinkedIn_priority_and_bounded :
    (∀ o : StepObs,
      (o.submitVisible = true → decideAction o = .submit) ∧
      (o.submitVisible = false → o.reviewVisible = true → decideAction o = .review) ∧
      (o.submitVisible = false → o.reviewVisible = false → o.nextVisible = true →
        decideAction o = .next) ∧
      (o.submitVisible = false → o.reviewVisible = false → o.nextVisible = false →
        decideAction o = .stall)) ∧
    (∀ (autoSubmit : Bool) (obs : Nat → StepObs) (step : Nat), step < MAX_STEPS →
      ((obs step).submitVisible = true →
        applyLoop autoSubmit obs step = (if autoSubmit then .APPLIED else .MANUAL)) ∧
      ((obs step).submitVisible = false → (obs step).reviewVisible = true →
        applyLoop autoSubmit obs step = applyLoop autoSubmit obs (step + 1)) ∧
      ((obs step).submitVisible = false → (obs step).reviewVisible = false →
        (obs step).nextVisible = true →
        applyLoop autoSubmit obs step = applyLoop autoSubmit obs (step + 1))) ∧
    (∀ (autoSubmit : Bool) (e : EntryObs) (obs : Nat → StepObs),
      e.closedMarker = false → e.easyApplyFound = true →
      (∀ i, i < MAX_STEPS → (obs i).submitVisible = false) →
      statusOfResult (applyLinkedIn autoSubmit e obs) = Status.MANUAL_INTERVENTION) := by
  refine ⟨?_, ?_, ?_⟩
  · intro o
    refine ⟨fun h1 => ?_, fun h1 h2 => ?_, fun h1 h2 h3 => ?_, fun h1 h2 h3 => ?_⟩
    · simp [decideAction, h1]
    · simp [decideAction, h1, h2]
    · simp [decideAction, h1, h2, h3]
    · simp [decideAction, h1, h2, h3]
  · intro autoSubmit obs step hlt
    refine ⟨?_, ?_, ?_⟩
    · intro h1
      rw [applyLoop]
      simp [hlt, decideAction, h1]
    · intro h1 h2
      rw [applyLoop]
      simp [hlt, decideAction, h1, h2]
    · intro h1 h2 h3
      rw [applyLoop]
      simp [hlt, decideAction, h1, h2, h3]
  · intro autoSubmit e obs hc hf hno
    have : applyLoop autoSubmit obs 0 = .MANUAL :=
      applyLoop_manual_of_no_submit autoSubmit obs hno MAX_STEPS 0 (by omega)
    simp [applyLinkedIn, hc, hf, this, statusOfResult]

/-- Witness for C2: a run whose seven steps show only a Next affordance
ends in `MANUAL_INTERVENTION`. -/
theorem applyLinkedIn_priority_and_bounded_witness :
    statusOfResult
      (applyLinkedIn true ⟨false, true, false⟩
        (fun _ => ⟨false, false, true, false, false, false, true⟩)) =
      Status.MANUAL_INTERVENTION :=
  applyLinkedIn_priority_and_bounded.2.2 true ⟨false, true, false⟩
    (fun _ => ⟨false, false, true, false, false, false, true⟩) rfl rfl
    (fun _ _ => rfl)

/-! ## C7: the pre-loop entry decision -/

/-- **C7.** A closed-job marker on the first scan yields `FAILED` whatever
the loop would observe (the loop is never consulted); with no apply
affordance, a previously-submitted marker yields `APPLIED`, and the
absence of both yields `MANUAL_INTERVENTION`. -/
theorem applyLinkedIn_entry_decision :
    (∀ (autoSubmit : Bool) (e : EntryObs) (obs : Nat → StepObs),
      e.closedMarker = true →
      statusOfResult (applyLinkedIn autoSubmit e obs) = Status.FAILED) ∧
    (∀ (autoSubmit : Bool) (e : EntryObs) (obs : Nat → StepObs),
      e.closedMarker = false → e.easyApplyFound = false → e.submittedMarker = true →
      statusOfResult (applyLinkedIn autoSubmit e obs) = Status.APPLIED) ∧
    (∀ (autoSubmit : Bool) (e : EntryObs) (obs : Nat → StepObs),
      e.closedMarker = false → e.easyApplyFound = false → e.submittedMarker = false →
      statusOfResult (applyLinkedIn autoSubmit e obs) = Status.MANUAL_INTERVENTION) := by
  refine ⟨?_, ?_, ?_⟩
  · intro a e obs h1
    simp [applyLinkedIn, h1, statusOfResult]
  · intro a e obs h1 h2 h3
    simp [applyLinkedIn, h1, h2, h3, statusOfResult]
  · intro a e obs h1 h2 h3
    simp [applyLinkedIn, h1, h2, h3, statusOfResult]

/-- Witness for C7: concrete entry observations for all three branches. -/
theorem applyLinkedIn_entry_decision_witness :
    statusOfResult (applyLinkedIn true ⟨true, false, false⟩
        (fun _ => ⟨false, false, false, false, false, false, false⟩)) = Status.FAILED ∧
    statusOfResult (applyLinkedIn true ⟨false, false, true⟩
        (fun _ => ⟨false, false, false, false, false, false, false⟩)) = Status.APPLIED ∧
    statusOfResult (applyLinkedIn true ⟨false, false, false⟩
        (fun _ => ⟨false, false, false, false, false, false, false⟩)) =
      Status.MANUAL_INTERVENTION :=
  ⟨applyLinkedIn_entry_decision.1 true ⟨true, false, false⟩ _ rfl,
    applyLinkedIn_entry_decision.2.1 true ⟨false, false, true⟩ _ rfl rfl rfl,
    applyLinkedIn_entry_decision.2.2 true ⟨false, false, false⟩ _ rfl rfl rfl⟩

/-! ## C9: numeric answer floors -/

/-- **C9.** A question the resolver classifies as experience-style is
never answered `"0"` — when the extracted number is `"0"` or absent the
answer is `"1"` — and a salary-style numeric field is answered `"0"` when
no numeric figure can be parsed from the candidate answer. -/
theorem numeric_answer_floors (lowered : List Char) (answer : String) :
    (labelIsSalary lowered = false → labelIsExperience lowered = true →
      resolveNumericAnswer lowered (extractNumericAnswer answer) ≠ "0" ∧
      ((extractNumericAnswer answer = "0" ∨ extractNumericAnswer answer = "") →
        resolveNumericAnswer lowered (extractNumericAnswer answer) = "1")) ∧
    (labelIsSalary lowered = true → extractNumericAnswer answer = "" →
      resolveNumericAnswer lowered (extractNumericAnswer answer) = "0") := by
  constructor
  · intro hs he
    unfold resolveNumericAnswer
    rw [hs, he]
    simp only [Bool.false_eq_true, if_false, if_true]
    by_cases h0 : extractNumericAnswer answer = "0" ∨ extractNumericAnswer answer = ""
    · simp [h0]
    · constructor
      · simp only [h0, if_false]
        intro hc
        exact h0 (Or.inl hc)
      · intro hc
        exact absurd hc h0
  · intro hs h0
    unfold resolveNumericAnswer
    rw [hs, h0]
    simp

/-- Witness for C9: a zero-years answer becomes `"1"`; an unparsable
salary answer becomes `"0"`. -/
theorem numeric_answer_floors_witness :
    resolveNumericAnswer "years of experience".toList (extractNumericAnswer "0 years") = "1" ∧
    resolveNumericAnswer "expected salary".toList (extractNumericAnswer "negotiable") = "0" :=
  ⟨((numeric_answer_floors "years of experience".toList "0 years").1
      (by decide) (by decide)).2 (Or.inl (by decide)),
    (numeric_answer_floors "expected salary".toList "negotiable").2
      (by decide) (by decide)⟩

/-! ## Score arithmetic helpers (shared by C3, C8, C10) -/

theorem prefBonusH_le (p : Nat) : prefBonusH p ≤ 40 := by
  unfold prefBonusH
  split <;> omega

/-- The shallow (no usable description) result is capped at 35 + 20 = 55
points and never matches. -/
theorem shallowResult_bounds (t : String) (d : Option String) (rs : List String) :
    (shallowResult t d rs).match_score ≤ 55 ∧ (shallowResult t d rs).is_match = false := by
  have hb := prefBonusH_le (preferenceSignals t (d.getD "")).length
  simp only [shallowResult, jsRoundHalf]
  constructor
  · omega
  · have hlt : ¬ (65 ≤ min ((70 + prefBonusH (preferenceSignals t (d.getD "")).length + 1) / 2) 100) := by
      omega
    exact decide_eq_false hlt

/-- The deep result with fewer than two bucket hits never matches. -/
theorem deepResult_is_match_floor (t d : String) (rs : List String)
    (h : (descBucketChecks d).1.length < 2) :
    (deepResult t d rs).is_match = false := by
  simp only [deepResult]
  rw [if_pos h]

/-- The deep result's score is monotone in the number of bucket hits when
the preference-signal count is unchanged. -/
theorem deepResult_score_mono (t d d' : String) (rs rs' : List String)
    (hh : (descBucketChecks d').1.length = (descBucketChecks d).1.length + 1)
    (hp : (preferenceSignals t d').length = (preferenceSignals t d).length) :
    (deepResult t d rs).match_score ≤ (deepResult t d' rs').match_score := by
  simp only [deepResult, hh, hp]
  have hB := prefBonusH_le (preferenceSignals t d).length
  by_cases h1 : (descBucketChecks d).1.length + 1 < 2
  · rw [if_pos (by omega : (descBucketChecks d).1.length < 2), if_pos h1]
    simp only [jsRoundHalf, bucketScoreH]
    omega
  · by_cases h2 : (descBucketChecks d).1.length < 2
    · rw [if_pos h2, if_neg h1]
      simp only [jsRoundHalf, bucketScoreH]
      omega
    · rw [if_neg h2, if_neg h1]
      simp only [jsRoundHalf, bucketScoreH]
      omega

/-! ## C3: the two-bucket hard floor -/

/-- **C3.** Whenever the description matches fewer than 2 of the 6 fixed
technology buckets, the classifier rejects (`is_match = false`), whatever
the title contributed: with a long description the `< 2` early return
fires, and with a short one the bucket rule is skipped so the score is
capped below the 65 threshold. -/
theorem classifier_hard_floor (t : String) (l : Option String) (d : String)
    (h : (descBucketChecks d).1.length < 2) :
    (computeMERNScore t (some d) l).is_match = false := by
  simp only [computeMERNScore]
  split
  · rfl
  · split
    · rfl
    · split
      · rfl
      · split
        · rfl
        · split
          · rfl
          · split
            · exact deepResult_is_match_floor t d _ h
            · exact (shallowResult_bounds t (some d) _).2

/-- Witness for C3: the empty description matches no bucket and is
rejected. -/
theorem classifier_hard_floor_witness :
    (computeMERNScore "Full Stack Developer" (some "") (some "Remote")).is_match = false :=
  classifier_hard_floor "Full Stack Developer" (some "Remote") "" (by decide)

/-! ## C4: strict rule order -/

/-- **C4.** The rules short-circuit in the order remote, exclusion,
seniority, title: each conjunct fixes the outcomes of the earlier rules
only and determines the whole result — the later rules are quantified over
arbitrary inputs and cannot influence it.  The final conjunct is the
scenario: title "Senior .NET Developer" with a remote description stating
"6+ years experience" is rejected by the exclusion rule (not the
seniority rule, which would also hold) with score 0. -/
theorem classifier_rule_order :
    (∀ (t : String) (d l : Option String),
      jsTrim t.data ≠ [] →
      (isRemoteJob t l d).1 = false →
      computeMERNScore t d l =
        ⟨0, false, ["Not remote: " ++ (isRemoteJob t l d).2], [], .high⟩) ∧
    (∀ (t : String) (d l : Option String),
      jsTrim t.data ≠ [] →
      (isRemoteJob t l d).1 = true →
      (isExcludedJob t (d.getD "")).1 = true →
      computeMERNScore t d l =
        ⟨0, false, [(isExcludedJob t (d.getD "")).2], [], .high⟩) ∧
    (∀ (t : String) (d l : Option String),
      jsTrim t.data ≠ [] →
      (isRemoteJob t l d).1 = true →
      (isExcludedJob t (d.getD "")).1 = false →
      isSeniorRole t d = true →
      computeMERNScore t d l =
        ⟨0, false, ["Senior role requiring 6+ years experience"], [], .high⟩) ∧
    (∀ (t : String) (d l : Option String),
      jsTrim t.data ≠ [] →
      (isRemoteJob t l d).1 = true →
      (isExcludedJob t (d.getD "")).1 = false →
      isSeniorRole t d = false →
      List.find? (fun p => rtest p.1 t) MERN_TITLE_PATTERNS = none →
      computeMERNScore t d l =
        ⟨0, false,
          ["Fully remote ✓",
            "Title \"" ++ t ++ "\" doesn\x27t match any MERN role keyword"],
          [], .high⟩) ∧
    computeMERNScore "Senior .NET Developer"
        (some "Remote position. 6+ years experience required.") none =
      ⟨0, false, ["Title contains excluded tech: \".net developer\""], [], .high⟩ := by
  refine ⟨?_, ?_, ?_, ?_, by decide⟩
  · intro t d l h1 h2
    simp [computeMERNScore, h1, h2]
  · intro t d l h1 h2 h3
    simp [computeMERNScore, h1, h2, h3]
  · intro t d l h1 h2 h3 h4
    simp [computeMERNScore, h1, h2, h3, h4]
  · intro t d l h1 h2 h3 h4 h5
    simp [computeMERNScore, h1, h2, h3, h4, h5]

/-- Witness for C4: the first conjunct at a location-restricted job. -/
theorem classifier_rule_order_witness :
    computeMERNScore "Full Stack Developer" none (some "New York, NY") =
      ⟨0, false, ["Not remote: Location restricted: \"New York, NY\""], [], .high⟩ :=
  classifier_rule_order.1 "Full Stack Developer" none (some "New York, NY")
    (by decide) (by decide)

/-! ## C5: the four-bucket full-stack scenario -/

/-- **C5.** For title "Full Stack Developer", a remote location, and a
description matching exactly the React, Node.js, MongoDB and Express
buckets, the classifier returns score 65 = 35 (title) + 4 × 7.5 (buckets)
and `is_match = true`. -/
theorem classifier_fullstack_scenario :
    descBucketChecks
        "We need React, Node.js, MongoDB and Express skills to build modern web apps for our team." =
      (["React", "Node.js", "MongoDB", "Express"], ["REST API", "JavaScript"]) ∧
    computeMERNScore "Full Stack Developer"
        (some "We need React, Node.js, MongoDB and Express skills to build modern web apps for our team.")
        (some "Remote") =
      ⟨65, true,
        ["Fully remote ✓", "Title matches: Full Stack Developer",
          "Description mentions: React, Node.js, MongoDB, Express"],
        ["REST API", "JavaScript"], .high⟩ := by
  constructor
  · decide
  · decide

/-! ## C8: bucket monotonicity -/

/-- **C8.** Changing the description so that one more technology bucket
matches, while every other rule outcome (remote, exclusion, seniority,
description length, preference signals) stays the same, never decreases
the returned score. -/
theorem classifier_bucket_monotone (t : String) (l : Option String) (d d' : String)
    (hremote : isRemoteJob t l (some d') = isRemoteJob t l (some d))
    (hexcl : isExcludedJob t d' = isExcludedJob t d)
    (hsenior : isSeniorRole t (some d') = isSeniorRole t (some d))
    (hlen : 50 < d.length) (hlen' : 50 < d'.length)
    (hprefs : (preferenceSignals t d').length = (preferenceSignals t d).length)
    (hbuckets : (descBucketChecks d').1.length = (descBucketChecks d).1.length + 1) :
    (computeMERNScore t (some d) l).match_score ≤
      (computeMERNScore t (some d') l).match_score := by
  simp only [computeMERNScore, Option.getD_some, hremote, hexcl, hsenior]
  split_ifs with h1 h2 h3 h4
  · exact le_refl _
  · exact le_refl _
  · exact le_refl _
  · exact le_refl _
  · rcases hfind : List.find? (fun p => rtest p.1 t) MERN_TITLE_PATTERNS with _ | pat
    · simp [hfind]
    · simp only [hfind, hlen, hlen', if_pos]
      exact deepResult_score_mono t d d' _ _ hbuckets hprefs

/-- Witness for C8: adding a MongoDB mention to a two-bucket description
raises the hit count from 2 to 3 and does not decrease the score. -/
theorem classifier_bucket_monotone_witness :
    (computeMERNScore "Full Stack Developer"
        (some "Our stack uses React and Node for building modern web applications.")
        (some "Remote")).match_score ≤
      (computeMERNScore "Full Stack Developer"
        (some "Our stack uses React and Node with MongoDB for building modern web applications.")
        (some "Remote")).match_score :=
  classifier_bucket_monotone "Full Stack Developer" (some "Remote")
    "Our stack uses React and Node for building modern web applications."
    "Our stack uses React and Node with MongoDB for building modern web applications."
    (by decide) (by decide) (by decide) (by decide) (by decide) (by decide) (by decide)

/-! ## C10: absent or short descriptions can never match -/

/-- **C10.** With an absent description or one of at most 50 characters the
bucket rule is skipped, so the score is at most 55 (35 title + 20
preference bonus, a bound that is attained) and `is_match` is always
false; consequently the pre-click validation of search results, which
passes a null description (part_006:1383), can never accept a job. -/
theorem shallow_description_never_matches :
    (∀ (t : String) (l d : Option String),
      (d = none ∨ ∃ s, d = some s ∧ s.length ≤ 50) →
      (computeMERNScore t d l).match_score ≤ 55 ∧
        (computeMERNScore t d l).is_match = false) ∧
    (computeMERNScore "Full Stack Developer"
        (some "remote startup saas global founding team") (some "Remote")).match_score = 55 ∧
    (∀ (t : String) (l : Option String), (validateMERNJob t none l).1 = false) := by
  have main : ∀ (t : String) (l d : Option String),
      (d = none ∨ ∃ s, d = some s ∧ s.length ≤ 50) →
      (computeMERNScore t d l).match_score ≤ 55 ∧
        (computeMERNScore t d l).is_match = false := by
    intro t l d hd
    rcases hd with hd | ⟨s, hd, hlen⟩ <;> subst hd <;> simp only [computeMERNScore]
    · split
      · exact ⟨Nat.zero_le _, rfl⟩
      · split
        · exact ⟨Nat.zero_le _, rfl⟩
        · split
          · exact ⟨Nat.zero_le _, rfl⟩
          · split
            · exact ⟨Nat.zero_le _, rfl⟩
            · split
              · exact ⟨Nat.zero_le _, rfl⟩
              · exact shallowResult_bounds t none _
    · split
      · exact ⟨Nat.zero_le _, rfl⟩
      · split
        · exact ⟨Nat.zero_le _, rfl⟩
        · split
          · exact ⟨Nat.zero_le _, rfl⟩
          · split
            · exact ⟨Nat.zero_le _, rfl⟩
            · split
              · exact ⟨Nat.zero_le _, rfl⟩
              · rw [if_neg (by omega)]
                exact shallowResult_bounds t (some s) _
  refine ⟨main, by decide, ?_⟩
  intro t l
  have h2 := (main t l none (Or.inl rfl)).2
  simp [validateMERNJob, h2]

/-- Witness for C10: the pre-click validation on a matching title with a
null description still rejects. -/
theorem shallow_description_never_matches_witness :
    (computeMERNScore "Full Stack Developer" none (some "Remote")).is_match = false :=
  (shallow_description_never_matches.1 "Full Stack Developer" (some "Remote") none
    (Or.inl rfl)).2

end JobAuto
